import Mathlib

/-!
Verification of the SQL-checker backend (src/backend/app.py).

The Python functions `analyze_sql_issues`, `calculate_performance_score`,
`get_performance_rating`, `check_input_validation`, `suggest_improvements`
and the `/embed` build operation are embedded as executable Lean functions
over `String` (viewed as its list of characters).  Regular-expression
matching in the source uses only a small fixed repertoire of constructs
(literals, `\s`, `\w`, quotes, lazy groups with literal terminators), which
are implemented here as explicit scanners over `List Char`.
-/

/-- Python `\s` character class (ASCII range, as used by the analyzed code). -/
def isPySpace (c : Char) : Bool :=
  c = ' ' || c = '\t' || c = '\n' || c = '\x0b' || c = '\x0c' || c = '\r'

/-- Python `\w` character class (ASCII range): letters, digits, underscore. -/
def isWordChar (c : Char) : Bool :=
  c.isAlphanum || c = '_'

/-- Single-quote character (written by code point to keep sources plain). -/
def squoteC : Char := Char.ofNat 39

/-- Double-quote character. -/
def dquoteC : Char := Char.ofNat 34

/-- The regex class `['"]` used by the analyzer's quote-sensitive patterns. -/
def isQuote (c : Char) : Bool :=
  c = squoteC || c = dquoteC

/-- Python `str.lower()` (ASCII). -/
def toLowerS (s : String) : String := ⟨s.data.map Char.toLower⟩

/-- Python `str.strip()`: drop whitespace at both ends. -/
def stripChars (l : List Char) : List Char :=
  ((l.dropWhile isPySpace).reverse.dropWhile isPySpace).reverse

/-- String version of `stripChars`. -/
def stripS (s : String) : String := ⟨stripChars s.data⟩

/-- Python `re.sub(r'\s+', ' ', ·)`: collapse every maximal whitespace run
to a single space. -/
def collapseWs : List Char → List Char
  | [] => []
  | [c] => if isPySpace c then [' '] else [c]
  | c :: d :: rest =>
    if isPySpace c then
      if isPySpace d then collapseWs (d :: rest)
      else ' ' :: collapseWs (d :: rest)
    else c :: collapseWs (d :: rest)

/-- Match a literal character sequence at the head of the input, returning
the remainder on success. -/
def litMatch : List Char → List Char → Option (List Char)
  | [], l => some l
  | _ :: _, [] => none
  | p :: ps, c :: cs => if p = c then litMatch ps cs else none

/-- Does `needle` occur as a contiguous substring of `hay`?  Models the
Python `in` operator on strings. -/
def hasSub (needle : List Char) : List Char → Bool
  | [] => (litMatch needle []).isSome
  | c :: t => (litMatch needle (c :: t)).isSome || hasSub needle t

/-- Python `needle in hay` for strings. -/
def substrS (needle hay : String) : Bool := hasSub needle.data hay.data

/-- The analyzer's normalization (app.py lines 130 and 134):
lower-case, strip, collapse whitespace runs to single spaces. -/
def analyze_normalize (s : String) : String :=
  ⟨collapseWs (stripChars ((toLowerS s).data))⟩

/-- Python's local variable `score` in `calculate_performance_score`
(app.py lines 400-435) just before the final clamp.  The sequential
`score -= ...` / `score += ...` updates (none of which clamps) amount to
this single arithmetic chain, with each condition exactly as in the code.
Note that the conditions test `sql_lower = sql.lower()` (not whitespace
normalized), and the `%` test is on the raw `sql`. -/
def score_before_clamp (sql : String) (issues : List String) (validated : Bool) : Int :=
  let sql_lower := toLowerS sql
  (100 : Int)
  - (if substrS "select *" sql_lower then 20 else 0)
  - (if substrS " join " sql_lower && !substrS " on " sql_lower then 20 else 0)
  - (if !substrS "limit" sql_lower && (substrS "select" sql_lower || substrS "union" sql_lower) then 15 else 0)
  - (if substrS "like" sql_lower && substrS "%" sql then 10 else 0)
  - (if substrS "distinct" sql_lower then 10 else 0)
  - (if substrS "union" sql_lower then 10 else 0)
  - (if substrS "order by" sql_lower && !substrS "limit" sql_lower then 10 else 0)
  - (if issues.length > 3 then 5 else 0)
  - (if !validated then 5 else 0)
  + (if substrS "limit" sql_lower then 5 else 0)
  + (if substrS "index" sql_lower then 5 else 0)
  + (if substrS "explain" sql_lower then 5 else 0)

/-- app.py line 437: `return max(0, min(100, score))`. -/
def calculate_performance_score (sql : String) (issues : List String) (validated : Bool) : Int :=
  max 0 (min 100 (score_before_clamp sql issues validated))

/-- app.py lines 439-450. -/
def get_performance_rating (score : Int) : String :=
  if score ≥ 90 then "🟢 Excellent"
  else if score ≥ 75 then "🟡 Good"
  else if score ≥ 60 then "🟠 Fair"
  else if score ≥ 40 then "🔴 Poor"
  else "🔴 Critical"

/-! ### Context validator (`check_input_validation`, app.py lines 75-127) -/

/-- app.py lines 95-102 (each regex is a literal once unescaped, and
`re.search` on it is substring containment). -/
def validation_patterns : List String :=
  ["validate(", "formrequest", "request->validate", "validator::make",
   "->rules(", "->messages("]

/-- app.py lines 110-116. -/
def security_patterns : List String :=
  ["escape(", "htmlspecialchars", "strip_tags", "filter_var", "preg_replace"]

/-- app.py line 123. -/
def superglobal_markers : List String := ["$_get", "$_post", "$_request"]

/-- app.py line 124. -/
def secure_markers : List String := ["validate", "escape", "filter"]

/-- app.py line 92: `line = lines[i].strip().lower()`. -/
def procLine (s : String) : String := toLowerS (stripS s)

/-- Whether any validation pattern matches the processed line
(app.py lines 104-107: sets `validated = True`). -/
def line_validated (s : String) : Bool :=
  validation_patterns.any fun p => substrS p (procLine s)

/-- The entry appended for a validation-pattern match (app.py line 107);
`i` is the 0-based index. -/
def vmEntry (i : Nat) (s : String) : String :=
  "Line " ++ toString (i + 1) ++ ": " ++ stripS s

/-- The entry appended for a security/escaping-pattern match (app.py line 120). -/
def secEntry (i : Nat) (s : String) : String :=
  "Line " ++ toString (i + 1) ++ ": Security - " ++ stripS s

/-- The entry appended for unguarded superglobal access (app.py line 125). -/
def sgEntry (i : Nat) : String :=
  "Line " ++ toString (i + 1) ++ ": Direct superglobal access without validation"

/-- All `validation_methods` entries contributed by one line: one `vmEntry`
per matching validation pattern (app.py lines 104-107), then one `secEntry`
per matching security pattern (lines 118-120). -/
def line_validation_entries (i : Nat) (s : String) : List String :=
  (validation_patterns.filter fun p => substrS p (procLine s)).map (fun _ => vmEntry i s)
  ++ (security_patterns.filter fun p => substrS p (procLine s)).map (fun _ => secEntry i s)

/-- The `security_issues` entries contributed by one line (app.py lines 122-125). -/
def line_security_entries (i : Nat) (s : String) : List String :=
  if (superglobal_markers.any fun k => substrS k (procLine s))
      && !(secure_markers.any fun k => substrS k (procLine s)) then
    [sgEntry i]
  else []

/-- `check_input_validation(file_path, line_number)` (app.py lines 75-127).
File I/O is embedded as `Option (List String)`: `none` models a file that
cannot be opened (the `except` branch, line 84-85), `some lines` the result
of `readlines()`.  The loop over `range(max(0, n-20), min(len(lines), n+20))`
accumulates `validated` by OR and the two lists append-only, so it equals
the comprehension below. -/
def check_input_validation (file : Option (List String)) (line_number : Nat) :
    Bool × List String × List String :=
  match file with
  | none => (false, [], [])
  | some lines =>
    let s := line_number - 20
    let e := min lines.length (line_number + 20)
    let idxs := List.range' s (e - s)
    ((idxs.any fun i => line_validated (lines.getD i "")),
     idxs.flatMap fun i => line_validation_entries i (lines.getD i ""),
     idxs.flatMap fun i => line_security_entries i (lines.getD i ""))

/-! ### Basic helper lemmas -/

theorem mem_range1 {m s n : Nat} : m ∈ List.range' s n ↔ s ≤ m ∧ m < s + n := by
  rw [List.mem_range']
  constructor
  · rintro ⟨i, hi, rfl⟩
    omega
  · rintro ⟨h1, h2⟩
    exact ⟨m - s, by omega, by omega⟩

/-- C1: for every input SQL string, every issues list and every validated
flag, `calculate_performance_score` returns an integer in [0, 100]. -/
theorem calculate_performance_score_bounds :
    ∀ (sql : String) (issues : List String) (validated : Bool),
      0 ≤ calculate_performance_score sql issues validated ∧
      calculate_performance_score sql issues validated ≤ 100 := by
  intro sql issues validated
  unfold calculate_performance_score
  constructor
  · exact le_max_left 0 _
  · exact max_le (by norm_num) (min_le_left _ _)

/-- C7: when the file cannot be opened (embedded as `none`), the context
validator returns exactly `(false, [], [])` for every line number; the
error is absorbed, never surfaced. -/
theorem validator_unreadable_file :
    ∀ line_number : Nat,
      check_input_validation none line_number = (false, [], []) := by
  intro n
  rfl

/-- C10: the performance score depends on the issues list only through
whether its length exceeds 3: any two issue lists on the same side of that
threshold give the same score, for every SQL string and validated flag. -/
theorem score_depends_only_on_issue_count :
    ∀ (sql : String) (v : Bool) (issues1 issues2 : List String),
      (issues1.length > 3 ↔ issues2.length > 3) →
      calculate_performance_score sql issues1 v =
        calculate_performance_score sql issues2 v := by
  intro sql v i1 i2 h
  have h5 : (if i1.length > 3 then (5 : Int) else 0)
      = (if i2.length > 3 then (5 : Int) else 0) := by
    by_cases hh : i1.length > 3
    · rw [if_pos hh, if_pos (h.mp hh)]
    · rw [if_neg hh, if_neg (fun c => hh (h.mpr c))]
  unfold calculate_performance_score score_before_clamp
  rw [h5]

/-- Witness for C10 at concrete inputs on the same side of the threshold. -/
theorem score_depends_only_on_issue_count_w :
    calculate_performance_score "select id from t" [] true =
      calculate_performance_score "select id from t" ["a", "b", "c"] true :=
  score_depends_only_on_issue_count "select id from t" true [] ["a", "b", "c"]
    (by decide)

/-! ### SQL heuristic analyzer (`analyze_sql_issues`, app.py lines 129-204)

The regex patterns of the analyzer are implemented as explicit scanners.
All of them are applied to `analyze_normalize sql`, in which every
whitespace run has already been collapsed to a single space. -/

/-- `\s+` at the head: requires at least one whitespace character, consumes
the maximal run (the characters that may follow in the analyzer's patterns
are never whitespace, so the greedy maximal munch is exact). -/
def wsPlus (l : List Char) : Option (List Char) :=
  match l with
  | c :: rest => if isPySpace c then some (rest.dropWhile isPySpace) else none
  | [] => none

/-- `\w+` at the head: requires at least one word character, consumes the
maximal run. -/
def wordPlus (l : List Char) : Option (List Char) :=
  match l with
  | c :: rest => if isWordChar c then some (rest.dropWhile isWordChar) else none
  | [] => none

/-- First literal of the list matching at the head of the input. -/
def firstLit : List (List Char) → List Char → Option (List Char)
  | [], _ => none
  | t :: ts, l =>
    match litMatch t l with
    | some rest => some rest
    | none => firstLit ts l

/-- Matches `\s+` followed by one of the literal terminators. -/
def termMatch (terms : List (List Char)) (l : List Char) : Option (List Char) :=
  match wsPlus l with
  | some r => firstLit terms r
  | none => none

/-- The lazy group `(.*?)(?:\s+t1|\s+t2|...|$)`: at each position, first try
a terminator, otherwise consume one character (`.` does not cross a
newline); at the end of input `$` matches.  Returns the captured group and
the remainder after the consumed terminator. -/
def lazyUntilTerm (terms : List (List Char)) (acc : List Char) :
    List Char → Option (List Char × List Char)
  | [] => some (acc.reverse, [])
  | c :: t =>
    match termMatch terms (c :: t) with
    | some rest => some (acc.reverse, rest)
    | none => if c = '\n' then none else lazyUntilTerm terms (c :: acc) t

/-- Clause terminators of the WHERE regex (app.py line 159). -/
def whereTerms : List (List Char) := ["group".data, "order".data, "limit".data]

/-- Clause terminators of the JOIN regex (app.py line 150). -/
def joinTerms : List (List Char) :=
  ["where".data, "group".data, "order".data, "limit".data]

/-- `where\s+(.*?)(?:\s+group|\s+order|\s+limit|$)` anchored at the head. -/
def matchWhereAt (l : List Char) : Option (List Char) :=
  match litMatch "where".data l with
  | some r =>
    match wsPlus r with
    | some r2 =>
      match lazyUntilTerm whereTerms [] r2 with
      | some (cond, _) => some cond
      | none => none
    | none => none
  | none => none

/-- `re.search` of the WHERE regex (app.py line 159): first match wins. -/
def searchWhereClause : List Char → Option (List Char)
  | [] => none
  | c :: t =>
    match matchWhereAt (c :: t) with
    | some cond => some cond
    | none => searchWhereClause t

/-- `join\s+\w+\s+on\s+(.*?)(?:\s+where|\s+group|\s+order|\s+limit|$)`
anchored at the head; returns the captured condition and the remainder
after the whole match (where `re.findall` resumes). -/
def matchJoinAt (l : List Char) : Option (List Char × List Char) :=
  match litMatch "join".data l with
  | some r =>
    match wsPlus r with
    | some r2 =>
      match wordPlus r2 with
      | some r3 =>
        match wsPlus r3 with
        | some r4 =>
          match litMatch "on".data r4 with
          | some r5 =>
            match wsPlus r5 with
            | some r6 => lazyUntilTerm joinTerms [] r6
            | none => none
          | none => none
        | none => none
      | none => none
    | none => none
  | none => none

/-- `re.findall` scan for the JOIN-condition regex (fuelled by the input
length; each successful match consumes at least one character). -/
def findJoinCondsAux : Nat → List Char → List (List Char)
  | 0, _ => []
  | _ + 1, [] => []
  | f + 1, c :: t =>
    match matchJoinAt (c :: t) with
    | some (cond, rest) => cond :: findJoinCondsAux f rest
    | none => findJoinCondsAux f t

/-- app.py line 150: the JOIN conditions extracted from the normalized SQL. -/
def findJoinConds (l : List Char) : List (List Char) := findJoinCondsAux l.length l

/-- `(\w+)\.(\w+)\s*=\s*\w+\.\w+` anchored at the head (app.py line 152).
The character classes on each side of every boundary are disjoint, so
greedy maximal munch without backtracking is exact. -/
def matchJoinFieldAt (l : List Char) : Option ((List Char × List Char) × List Char) :=
  match l with
  | c :: _ =>
    if isWordChar c then
      match l.dropWhile isWordChar with
      | '.' :: r2 =>
        match r2 with
        | d :: _ =>
          if isWordChar d then
            match (r2.dropWhile isWordChar).dropWhile isPySpace with
            | '=' :: r5 =>
              match r5.dropWhile isPySpace with
              | e :: _ =>
                if isWordChar e then
                  match (r5.dropWhile isPySpace).dropWhile isWordChar with
                  | '.' :: r7 =>
                    match r7 with
                    | g :: _ =>
                      if isWordChar g then
                        some ((l.takeWhile isWordChar, r2.takeWhile isWordChar),
                              r7.dropWhile isWordChar)
                      else none
                    | [] => none
                  | _ => none
                else none
              | [] => none
            | _ => none
          else none
        | [] => none
      | _ => none
    else none
  | [] => none

/-- `re.findall` scan for the JOIN-field regex. -/
def findJoinFieldsAux : Nat → List Char → List (List Char × List Char)
  | 0, _ => []
  | _ + 1, [] => []
  | f + 1, c :: t =>
    match matchJoinFieldAt (c :: t) with
    | some (tf, rest) => tf :: findJoinFieldsAux f rest
    | none => findJoinFieldsAux f t

/-- app.py line 152 applied to one extracted JOIN condition. -/
def findJoinFields (l : List Char) : List (List Char × List Char) :=
  findJoinFieldsAux l.length l

/-- Tail of `(\w+)\s*=\s*\?` after the captured group (app.py line 164). -/
def tail1 (l : List Char) : Option (List Char) :=
  match l.dropWhile isPySpace with
  | '=' :: r =>
    match r.dropWhile isPySpace with
    | '?' :: r2 => some r2
    | _ => none
  | _ => none

/-- Tail of `(\w+)\s*=\s*['"]?\w+['"]?` after the captured group
(app.py line 165).  The optional quotes are greedy; a leading quote must be
followed by a word character (otherwise the regex backtracks the optional
quote and then fails on `\w+`). -/
def tail2 (l : List Char) : Option (List Char) :=
  match l.dropWhile isPySpace with
  | '=' :: r =>
    match r.dropWhile isPySpace with
    | q :: r3 =>
      if isQuote q then
        match r3 with
        | w :: _ =>
          if isWordChar w then
            match r3.dropWhile isWordChar with
            | q2 :: r4 => if isQuote q2 then some r4 else some (q2 :: r4)
            | [] => some []
          else none
        | [] => none
      else if isWordChar q then
        match (q :: r3).dropWhile isWordChar with
        | q2 :: r4 => if isQuote q2 then some r4 else some (q2 :: r4)
        | [] => some []
      else none
    | [] => none
  | _ => none

/-- Tail of `(\w+)\s*in\s*\(` after the captured group (app.py line 166). -/
def tail3 (l : List Char) : Option (List Char) :=
  match litMatch "in".data (l.dropWhile isPySpace) with
  | some r =>
    match r.dropWhile isPySpace with
    | '(' :: r2 => some r2
    | _ => none
  | none => none

/-- Tail of `(\w+)\s*like\s*['"]` after the captured group (app.py line 167). -/
def tail4 (l : List Char) : Option (List Char) :=
  match litMatch "like".data (l.dropWhile isPySpace) with
  | some r =>
    match r.dropWhile isPySpace with
    | q :: r2 => if isQuote q then some r2 else none
    | _ => none
  | none => none

/-- Greedy-with-backtracking `(\w+)`: given the maximal word run at the
current position, try the pattern tail after the longest capture first,
shrinking on failure (needed because `in`/`like` are themselves word
characters). -/
def tryKAux (tailp : List Char → Option (List Char)) (run rest : List Char) :
    Nat → Option (List Char × List Char)
  | 0 => none
  | k + 1 =>
    match tailp (run.drop (k + 1) ++ rest) with
    | some after => some (run.take (k + 1), after)
    | none => tryKAux tailp run rest k

/-- Try the field pattern `(\w+)<tail>` anchored at a word run. -/
def tryK (tailp : List Char → Option (List Char)) (run rest : List Char) :
    Option (List Char × List Char) :=
  tryKAux tailp run rest run.length

/-- `re.findall` scan for one field pattern over the WHERE clause. -/
def findFieldsAux (tailp : List Char → Option (List Char)) :
    Nat → List Char → List (List Char)
  | 0, _ => []
  | _ + 1, [] => []
  | f + 1, c :: t =>
    if isWordChar c then
      match tryK tailp ((c :: t).takeWhile isWordChar) ((c :: t).dropWhile isWordChar) with
      | some (field, after) => field :: findFieldsAux tailp f after
      | none => findFieldsAux tailp f t
    else findFieldsAux tailp f t

/-- All captures of one field pattern (app.py line 171). -/
def findFields (tailp : List Char → Option (List Char)) (l : List Char) :
    List (List Char) :=
  findFieldsAux tailp l.length l

/-- Lazy `.*?\)`: consume up to and including the first `)` (DOTALL). -/
def scanCloseParen : List Char → Option (List Char)
  | [] => none
  | c :: t => if c = ')' then some t else scanCloseParen t

/-- `\(\s*select\s+.*?\)` anchored at the head (app.py line 178). -/
def matchSubqAt (l : List Char) : Option (List Char) :=
  match l with
  | '(' :: r =>
    match litMatch "select".data (r.dropWhile isPySpace) with
    | some r2 =>
      match wsPlus r2 with
      | some r3 => scanCloseParen r3
      | none => none
    | none => none
  | _ => none

/-- `re.findall` count of subquery matches. -/
def countSubqAux : Nat → List Char → Nat
  | 0, _ => 0
  | _ + 1, [] => 0
  | f + 1, c :: t =>
    match matchSubqAt (c :: t) with
    | some rest => countSubqAux f rest + 1
    | none => countSubqAux f t

/-- Number of `(select ...)` subqueries found (app.py line 178). -/
def countSubq (l : List Char) : Nat := countSubqAux l.length l

/-- `like\s+['"]%(\w+)` anchored at the head (app.py line 200). -/
def likeAt (l : List Char) : Bool :=
  match litMatch "like".data l with
  | some r =>
    match wsPlus r with
    | some (q :: p :: w :: _) => isQuote q && p = '%' && isWordChar w
    | _ => false
  | none => false

/-- Whether the leading-wildcard LIKE regex matches anywhere. -/
def likeScan : List Char → Bool
  | [] => false
  | c :: t => likeAt (c :: t) || likeScan t

/-! Issue strings (verbatim from app.py). -/

/-- app.py line 138. -/
def wildcardIssue : String :=
  "🚨 Avoid SELECT * — only select necessary columns to reduce data transfer and improve performance."

/-- app.py line 142. -/
def noLimitIssue : String :=
  "⚠️ No LIMIT clause — may return huge result sets. Add LIMIT for pagination."

/-- app.py line 147. -/
def joinNoOnIssue : String :=
  "🚨 JOIN without ON clause detected — may result in Cartesian product."

/-- app.py line 154. -/
def joinFieldIssue (t f : String) : String :=
  "📊 Ensure JOIN field \x27" ++ t ++ "." ++ f ++ "\x27 is indexed for optimal performance."

/-- app.py line 174. -/
def whereFieldIssue (f : String) : String :=
  "📊 Ensure WHERE field \x27" ++ f ++ "\x27 is indexed for optimal filtering."

/-- app.py line 180. -/
def subqueryIssue : String :=
  "⚠️ Multiple subqueries detected — consider using JOINs or EXISTS for better performance."

/-- app.py line 184. -/
def orderByIssue : String :=
  "⚠️ ORDER BY without LIMIT — sorting large datasets can be expensive."

/-- app.py line 189. -/
def groupByIssue : String :=
  "💡 Consider adding HAVING clause if you need to filter grouped results."

/-- app.py line 193. -/
def distinctIssue : String :=
  "💡 DISTINCT can be expensive on large datasets — ensure it\x27s necessary."

/-- app.py line 197. -/
def unionIssue : String :=
  "💡 UNION operations can be expensive — consider if UNION ALL would suffice."

/-- app.py line 202. -/
def likeWildcardIssue : String :=
  "🚨 LIKE with leading wildcard detected — this prevents index usage. Consider full-text search."

/-- Rule 1 (app.py lines 136-138). -/
def rule1_issues (n : String) : List String :=
  if substrS "select *" n then [wildcardIssue] else []

/-- Rule 2 (app.py lines 140-142). -/
def rule2_issues (n : String) : List String :=
  if !substrS "limit" n && (substrS "select" n || substrS "union" n) then
    [noLimitIssue]
  else []

/-- Rule 3 (app.py lines 144-154). -/
def rule3_issues (n : String) : List String :=
  if substrS " join " n then
    if !substrS " on " n then [joinNoOnIssue]
    else
      (findJoinConds n.data).flatMap fun cond =>
        (findJoinFields cond).map fun tf => joinFieldIssue ⟨tf.1⟩ ⟨tf.2⟩
  else []

/-- app.py line 173. -/
def exemptFields : List String := ["id", "created_at", "updated_at"]

/-- The four field patterns applied to the WHERE clause, in order
(app.py lines 163-168). -/
def whereFieldsOf (cond : List Char) : List (List Char) :=
  findFields tail1 cond ++ findFields tail2 cond
    ++ findFields tail3 cond ++ findFields tail4 cond

/-- Rule 4 (app.py lines 156-174). -/
def rule4_issues (n : String) : List String :=
  if substrS "where" n then
    match searchWhereClause n.data with
    | some cond =>
      (whereFieldsOf cond).filterMap fun f =>
        if (⟨f⟩ : String) ∈ exemptFields then none
        else some (whereFieldIssue ⟨f⟩)
    | none => []
  else []

/-- Rule 5 (app.py lines 176-180). -/
def rule5_issues (n : String) : List String :=
  if substrS "(" n && substrS "select" n then
    if countSubq n.data > 2 then [subqueryIssue] else []
  else []

/-- Rule 6 (app.py lines 182-184). -/
def rule6_issues (n : String) : List String :=
  if substrS "order by" n && !substrS "limit" n then [orderByIssue] else []

/-- Rule 7 (app.py lines 186-189). -/
def rule7_issues (n : String) : List String :=
  if substrS "group by" n && !substrS "having" n then [groupByIssue] else []

/-- Rule 8 (app.py lines 191-193). -/
def rule8_issues (n : String) : List String :=
  if substrS "distinct" n then [distinctIssue] else []

/-- Rule 9 (app.py lines 195-197). -/
def rule9_issues (n : String) : List String :=
  if substrS "union" n then [unionIssue] else []

/-- Rule 10 (app.py lines 199-202). -/
def rule10_issues (n : String) : List String :=
  if likeScan n.data then [likeWildcardIssue] else []

/-- `analyze_sql_issues` (app.py lines 129-204): the rules append to a
single list in order. -/
def analyze_sql_issues (sql : String) : List String :=
  let n := analyze_normalize sql
  rule1_issues n ++ rule2_issues n ++ rule3_issues n ++ rule4_issues n
    ++ rule5_issues n ++ rule6_issues n ++ rule7_issues n ++ rule8_issues n
    ++ rule9_issues n ++ rule10_issues n

/-! ### Recommendation composer (`suggest_improvements`, app.py lines 206-257) -/

/-- The conditional part of the suggestion list (app.py lines 207-242),
in append order. -/
def suggest_pre (query : String) (input_validated : Bool)
    (issues validation_methods security_issues : List String) : List String :=
  (if !input_validated then
    ["🔐 **Security**: Implement Laravel validation using `$request->validate()` or FormRequest classes.",
     "🔐 **Security**: Use Laravel\x27s built-in CSRF protection and input sanitization."]
  else [])
  ++ (if validation_methods = [] then []
      else ["✅ **Validation Found**: " ++ String.intercalate ", " (validation_methods.take 3)])
  ++ (if security_issues = [] then []
      else ["🚨 **Security Issues**: " ++ String.intercalate ", " (security_issues.take 3)])
  ++ issues
  ++ (if substrS "select *" (toLowerS query) then
    ["📊 **Performance**: Replace SELECT * with specific columns using `select(\x27id\x27, \x27name\x27, \x27email\x27)`",
     "📊 **Performance**: Use Eloquent\x27s `select()` method for better type safety"]
  else [])
  ++ (if substrS "join" (toLowerS query) then
    ["🔗 **Joins**: Consider using Eloquent relationships instead of manual JOINs",
     "🔗 **Joins**: Use `with()` for eager loading to avoid N+1 queries"]
  else [])
  ++ (if substrS "where" (toLowerS query) && !substrS "limit" (toLowerS query) then
    ["📄 **Pagination**: Implement pagination using `paginate()` or `simplePaginate()`",
     "📄 **Pagination**: For large datasets, use `chunk()` for memory efficiency"]
  else [])
  ++ (if substrS "order by" (toLowerS query) then
    ["📈 **Sorting**: Ensure ORDER BY columns are indexed",
     "📈 **Sorting**: Consider using database indexes for frequently sorted columns"]
  else [])

/-- The unconditional tail (app.py lines 244-255), appended on every call. -/
def general_tail : List String :=
  ["💾 **Caching**: Implement Redis caching for frequently accessed data",
   "💾 **Caching**: Use Laravel\x27s `remember()` method for query result caching",
   "🗄️ **Database**: Run `EXPLAIN` on your query to analyze execution plan",
   "🗄️ **Database**: Consider adding composite indexes for multi-column WHERE clauses",
   "⚡ **Code**: Use Eloquent\x27s `lazy()` for large result sets",
   "⚡ **Code**: Implement database query logging in development",
   "⚡ **Code**: Use Laravel Telescope for query monitoring in development"]

/-- `suggest_improvements` (app.py lines 206-257).  `None` defaults for the
two optional arguments behave exactly like empty lists, so they are
embedded as lists. -/
def suggest_improvements (query : String) (input_validated : Bool)
    (issues validation_methods security_issues : List String) : List String :=
  suggest_pre query input_validated issues validation_methods security_issues
    ++ general_tail

/-- C9: every output of the recommendation composer ends with the fixed
unconditional 7-entry tail, hence has length at least 7 and is never
empty, for all inputs. -/
theorem suggestions_tail_guarantee :
    ∀ (query : String) (v : Bool) (issues vm si : List String),
      general_tail <:+ suggest_improvements query v issues vm si ∧
      7 ≤ (suggest_improvements query v issues vm si).length ∧
      suggest_improvements query v issues vm si ≠ [] := by
  intro query v issues vm si
  refine ⟨⟨suggest_pre query v issues vm si, rfl⟩, ?_, ?_⟩
  · simp [suggest_improvements, general_tail]
  · simp [suggest_improvements, general_tail]

/-! ### Index build (`/embed`, app.py lines 321-351) -/

/-- A candidate line produced by `index_codebase` (app.py lines 304-308). -/
structure CandidateLine where
  file : String
  line : Nat
  text : String

/-- Batched embedding (app.py lines 338-345): `model.encode` is an external
black box `eb`; batches of 50 are processed in input order and
concatenated.  Fuelled by the list length (each step consumes at least one
element). -/
def encodeBatchesAux {E : Type} (eb : List String → List E) :
    Nat → List String → List E
  | 0, _ => []
  | _ + 1, [] => []
  | f + 1, c :: t =>
    eb ((c :: t).take 50) ++ encodeBatchesAux eb f ((c :: t).drop 50)

/-- The `/embed` handler `embed_codebase` (app.py lines 321-351) as a state
transformer on the global `indexed_lines`.  `path_ok` models
`user_path and os.path.exists(user_path)`; `extracted` is the result of
`index_codebase`; the returned pair is (HTTP result, new global index).
The global is reassigned only on the fully successful path (line 347). -/
def embed_codebase {E : Type} (path_ok : Bool)
    (prev : List (CandidateLine × E)) (extracted : List CandidateLine)
    (eb : List String → List E) : Except String Nat × List (CandidateLine × E) :=
  if path_ok then
    match extracted with
    | [] => (Except.error "No SQL-related code found in the specified path", prev)
    | c :: t =>
      let texts := (c :: t).map fun e => e.text
      let embs := encodeBatchesAux eb texts.length texts
      let idx := (c :: t).zip embs
      (Except.ok idx.length, idx)
  else (Except.error "Invalid Laravel path", prev)

/-- C8: the index build is atomic: an empty extraction yields an error and
leaves the previously held index unchanged, and in general the global
index changes only when the build returns success. -/
theorem embed_codebase_atomic :
    ∀ (E : Type) (path_ok : Bool) (prev : List (CandidateLine × E))
      (extracted : List CandidateLine) (eb : List String → List E),
      (extracted = [] →
        (embed_codebase path_ok prev extracted eb).2 = prev ∧
        ∃ msg, (embed_codebase path_ok prev extracted eb).1 = Except.error msg) ∧
      ((embed_codebase path_ok prev extracted eb).2 ≠ prev →
        ∃ n, (embed_codebase path_ok prev extracted eb).1 = Except.ok n) := by
  intro E path_ok prev extracted eb
  cases path_ok with
  | false =>
    exact ⟨fun _ => ⟨rfl, ⟨_, rfl⟩⟩, fun h => absurd rfl h⟩
  | true =>
    cases extracted with
    | nil => exact ⟨fun _ => ⟨rfl, ⟨_, rfl⟩⟩, fun h => absurd rfl h⟩
    | cons c t =>
      refine ⟨fun h => absurd h (by simp), fun _ => ⟨_, rfl⟩⟩

/-- Witness for C8: empty extraction over a valid path errors out and the
previous (non-empty) index is retained. -/
theorem embed_codebase_atomic_w :
    (embed_codebase true [(CandidateLine.mk "app/Foo.php" 3 "db::select", (7 : Nat))]
        [] (fun ts => ts.map fun _ => (0 : Nat))).2
      = [(CandidateLine.mk "app/Foo.php" 3 "db::select", (7 : Nat))] ∧
    ∃ msg, (embed_codebase true [(CandidateLine.mk "app/Foo.php" 3 "db::select", (7 : Nat))]
        [] (fun ts => ts.map fun _ => (0 : Nat))).1 = Except.error msg :=
  (embed_codebase_atomic Nat true
    [(CandidateLine.mk "app/Foo.php" 3 "db::select", (7 : Nat))] []
    (fun ts => ts.map fun _ => (0 : Nat))).1 rfl

/-! ### Which rules can emit which issue strings -/

theorem mem_if_single {c : Bool} {w : String} :
    w ∈ (if c then [w] else []) ↔ c = true := by
  cases c <;> simp

theorem not_mem_if_single {c : Bool} {w s : String} (h : w ≠ s) :
    w ∉ (if c then [s] else []) := by
  cases c <;> simp [h]

theorem joinFieldIssue_head (t f : String) :
    (joinFieldIssue t f).data.head? = some '📊' := by
  simp only [joinFieldIssue, String.data_append, List.append_assoc]
  rfl

theorem whereFieldIssue_head (f : String) :
    (whereFieldIssue f).data.head? = some '📊' := by
  simp only [whereFieldIssue, String.data_append, List.append_assoc]
  rfl

theorem wildcard_not_rule2 (n : String) : wildcardIssue ∉ rule2_issues n := by
  unfold rule2_issues
  exact not_mem_if_single (by decide)

theorem wildcard_not_rule3 (n : String) : wildcardIssue ∉ rule3_issues n := by
  intro h
  unfold rule3_issues at h
  split at h
  · split at h
    · simp only [List.mem_singleton] at h
      exact absurd h (by decide)
    · simp only [List.mem_flatMap, List.mem_map] at h
      obtain ⟨cond, _, tf, _, heq⟩ := h
      have h2 := joinFieldIssue_head ⟨tf.1⟩ ⟨tf.2⟩
      rw [heq] at h2
      exact absurd h2 (by decide)
  · simp at h

theorem wildcard_not_rule4 (n : String) : wildcardIssue ∉ rule4_issues n := by
  intro h
  unfold rule4_issues at h
  split at h
  · split at h
    · simp only [List.mem_filterMap] at h
      obtain ⟨f, _, hf⟩ := h
      by_cases he : (⟨f⟩ : String) ∈ exemptFields
      · rw [if_pos he] at hf
        cases hf
      · rw [if_neg he] at hf
        have h2 := whereFieldIssue_head ⟨f⟩
        rw [Option.some.injEq] at hf
        rw [hf] at h2
        exact absurd h2 (by decide)
    · simp at h
  · simp at h

theorem wildcard_not_rule5 (n : String) : wildcardIssue ∉ rule5_issues n := by
  intro h
  unfold rule5_issues at h
  split at h
  · split at h
    · simp only [List.mem_singleton] at h
      exact absurd h (by decide)
    · simp at h
  · simp at h

theorem wildcard_not_rule6 (n : String) : wildcardIssue ∉ rule6_issues n := by
  unfold rule6_issues
  exact not_mem_if_single (by decide)

theorem wildcard_not_rule7 (n : String) : wildcardIssue ∉ rule7_issues n := by
  unfold rule7_issues
  exact not_mem_if_single (by decide)

theorem wildcard_not_rule8 (n : String) : wildcardIssue ∉ rule8_issues n := by
  unfold rule8_issues
  exact not_mem_if_single (by decide)

theorem wildcard_not_rule9 (n : String) : wildcardIssue ∉ rule9_issues n := by
  unfold rule9_issues
  exact not_mem_if_single (by decide)

theorem wildcard_not_rule10 (n : String) : wildcardIssue ∉ rule10_issues n := by
  unfold rule10_issues
  exact not_mem_if_single (by decide)

/-- The SELECT-* issue appears in the analyzer output exactly when rule 1
fires on the normalized text. -/
theorem wildcard_mem_analyze (sql : String) :
    wildcardIssue ∈ analyze_sql_issues sql ↔
      substrS "select *" (analyze_normalize sql) = true := by
  have h2 := wildcard_not_rule2 (analyze_normalize sql)
  have h3 := wildcard_not_rule3 (analyze_normalize sql)
  have h4 := wildcard_not_rule4 (analyze_normalize sql)
  have h5 := wildcard_not_rule5 (analyze_normalize sql)
  have h6 := wildcard_not_rule6 (analyze_normalize sql)
  have h7 := wildcard_not_rule7 (analyze_normalize sql)
  have h8 := wildcard_not_rule8 (analyze_normalize sql)
  have h9 := wildcard_not_rule9 (analyze_normalize sql)
  have h10 := wildcard_not_rule10 (analyze_normalize sql)
  simp [analyze_sql_issues, List.mem_append, h2, h3, h4, h5, h6, h7, h8, h9,
    h10, rule1_issues, mem_if_single]

theorem like_not_rule1 (n : String) : likeWildcardIssue ∉ rule1_issues n := by
  unfold rule1_issues
  exact not_mem_if_single (by decide)

theorem like_not_rule2 (n : String) : likeWildcardIssue ∉ rule2_issues n := by
  unfold rule2_issues
  exact not_mem_if_single (by decide)

theorem like_not_rule3 (n : String) : likeWildcardIssue ∉ rule3_issues n := by
  intro h
  unfold rule3_issues at h
  split at h
  · split at h
    · simp only [List.mem_singleton] at h
      exact absurd h (by decide)
    · simp only [List.mem_flatMap, List.mem_map] at h
      obtain ⟨cond, _, tf, _, heq⟩ := h
      have h2 := joinFieldIssue_head ⟨tf.1⟩ ⟨tf.2⟩
      rw [heq] at h2
      exact absurd h2 (by decide)
  · simp at h

theorem like_not_rule4 (n : String) : likeWildcardIssue ∉ rule4_issues n := by
  intro h
  unfold rule4_issues at h
  split at h
  · split at h
    · simp only [List.mem_filterMap] at h
      obtain ⟨f, _, hf⟩ := h
      by_cases he : (⟨f⟩ : String) ∈ exemptFields
      · rw [if_pos he] at hf
        cases hf
      · rw [if_neg he] at hf
        have h2 := whereFieldIssue_head ⟨f⟩
        rw [Option.some.injEq] at hf
        rw [hf] at h2
        exact absurd h2 (by decide)
    · simp at h
  · simp at h

theorem like_not_rule5 (n : String) : likeWildcardIssue ∉ rule5_issues n := by
  intro h
  unfold rule5_issues at h
  split at h
  · split at h
    · simp only [List.mem_singleton] at h
      exact absurd h (by decide)
    · simp at h
  · simp at h

theorem like_not_rule6 (n : String) : likeWildcardIssue ∉ rule6_issues n := by
  unfold rule6_issues
  exact not_mem_if_single (by decide)

theorem like_not_rule7 (n : String) : likeWildcardIssue ∉ rule7_issues n := by
  unfold rule7_issues
  exact not_mem_if_single (by decide)

theorem like_not_rule8 (n : String) : likeWildcardIssue ∉ rule8_issues n := by
  unfold rule8_issues
  exact not_mem_if_single (by decide)

theorem like_not_rule9 (n : String) : likeWildcardIssue ∉ rule9_issues n := by
  unfold rule9_issues
  exact not_mem_if_single (by decide)

/-- The leading-wildcard LIKE issue appears in the analyzer output exactly
when the regex `like\s+['"]%(\w+)` matches the normalized text. -/
theorem like_mem_analyze (sql : String) :
    likeWildcardIssue ∈ analyze_sql_issues sql ↔
      likeScan (analyze_normalize sql).data = true := by
  have h1 := like_not_rule1 (analyze_normalize sql)
  have h2 := like_not_rule2 (analyze_normalize sql)
  have h3 := like_not_rule3 (analyze_normalize sql)
  have h4 := like_not_rule4 (analyze_normalize sql)
  have h5 := like_not_rule5 (analyze_normalize sql)
  have h6 := like_not_rule6 (analyze_normalize sql)
  have h7 := like_not_rule7 (analyze_normalize sql)
  have h8 := like_not_rule8 (analyze_normalize sql)
  have h9 := like_not_rule9 (analyze_normalize sql)
  simp [analyze_sql_issues, List.mem_append, h1, h2, h3, h4, h5, h6, h7, h8,
    h9, rule10_issues, mem_if_single]

/-- The score chain with the SELECT-* deduction removed (used to locate
that deduction inside `score_before_clamp`). -/
def score_sans_select_star (sql : String) (issues : List String) (validated : Bool) : Int :=
  (100 : Int)
  - (if substrS " join " (toLowerS sql) && !substrS " on " (toLowerS sql) then 20 else 0)
  - (if !substrS "limit" (toLowerS sql) && (substrS "select" (toLowerS sql) || substrS "union" (toLowerS sql)) then 15 else 0)
  - (if substrS "like" (toLowerS sql) && substrS "%" sql then 10 else 0)
  - (if substrS "distinct" (toLowerS sql) then 10 else 0)
  - (if substrS "union" (toLowerS sql) then 10 else 0)
  - (if substrS "order by" (toLowerS sql) && !substrS "limit" (toLowerS sql) then 10 else 0)
  - (if issues.length > 3 then 5 else 0)
  - (if !validated then 5 else 0)
  + (if substrS "limit" (toLowerS sql) then 5 else 0)
  + (if substrS "index" (toLowerS sql) then 5 else 0)
  + (if substrS "explain" (toLowerS sql) then 5 else 0)

/-- The score chain with the leading-wildcard-LIKE deduction removed. -/
def score_sans_like (sql : String) (issues : List String) (validated : Bool) : Int :=
  (100 : Int)
  - (if substrS "select *" (toLowerS sql) then 20 else 0)
  - (if substrS " join " (toLowerS sql) && !substrS " on " (toLowerS sql) then 20 else 0)
  - (if !substrS "limit" (toLowerS sql) && (substrS "select" (toLowerS sql) || substrS "union" (toLowerS sql)) then 15 else 0)
  - (if substrS "distinct" (toLowerS sql) then 10 else 0)
  - (if substrS "union" (toLowerS sql) then 10 else 0)
  - (if substrS "order by" (toLowerS sql) && !substrS "limit" (toLowerS sql) then 10 else 0)
  - (if issues.length > 3 then 5 else 0)
  - (if !validated then 5 else 0)
  + (if substrS "limit" (toLowerS sql) then 5 else 0)
  + (if substrS "index" (toLowerS sql) then 5 else 0)
  + (if substrS "explain" (toLowerS sql) then 5 else 0)

/-- C6 (corrected): the SELECT-* issue fires iff the whitespace-normalized
lower-cased text contains `select *`, but the 20-point deduction inside the
score is keyed to the *un-normalized* lower-cased text, so the two can
disagree. -/
theorem select_star_rule_amended :
    ∀ (sql : String) (issues : List String) (v : Bool),
      (wildcardIssue ∈ analyze_sql_issues sql ↔
        substrS "select *" (analyze_normalize sql) = true) ∧
      score_before_clamp sql issues v =
        score_sans_select_star sql issues v
          - (if substrS "select *" (toLowerS sql) then 20 else 0) := by
  intro sql issues v
  refine ⟨wildcard_mem_analyze sql, ?_⟩
  simp only [score_before_clamp, score_sans_select_star]
  ring

/-- Witness for C6's amended rule at a concrete firing query. -/
theorem select_star_rule_amended_w :
    wildcardIssue ∈ analyze_sql_issues "select * from t" :=
  (select_star_rule_amended "select * from t" [] true).1.mpr (by decide)

/-- Counterexample to C6 as stated: `"select  * from t"` (two spaces) fires
the SELECT-* issue (the normalized text contains `select *`) yet the score
is 85, i.e. 20 points higher than the single-space variant — the deduction
did not apply because the raw lower-cased text lacks `select *`. -/
theorem select_star_rule_cex :
    wildcardIssue ∈ analyze_sql_issues "select  * from t" ∧
    substrS "select *" (analyze_normalize "select  * from t") = true ∧
    substrS "select *" (toLowerS "select  * from t") = false ∧
    calculate_performance_score "select  * from t"
      (analyze_sql_issues "select  * from t") true = 85 ∧
    calculate_performance_score "select * from t"
      (analyze_sql_issues "select * from t") true = 65 := by
  decide

/-- C2 (corrected): the leading-wildcard LIKE issue fires iff the regex
`like\s+['"]%(\w+)` matches the normalized text, but the 10-point deduction
is keyed to the far weaker test `'like' in sql.lower() and '%' in sql`, so
the deduction can apply with no leading-wildcard literal present. -/
theorem like_wildcard_rule_amended :
    ∀ (sql : String) (issues : List String) (v : Bool),
      (likeWildcardIssue ∈ analyze_sql_issues sql ↔
        likeScan (analyze_normalize sql).data = true) ∧
      score_before_clamp sql issues v =
        score_sans_like sql issues v
          - (if substrS "like" (toLowerS sql) && substrS "%" sql then 10 else 0) := by
  intro sql issues v
  refine ⟨like_mem_analyze sql, ?_⟩
  simp only [score_before_clamp, score_sans_like]
  ring

/-- Witness for C2's amended rule at a concrete firing query. -/
theorem like_wildcard_rule_amended_w :
    likeWildcardIssue ∈ analyze_sql_issues "select name from t where name like \x27%a\x27" :=
  (like_wildcard_rule_amended "select name from t where name like \x27%a\x27" [] true).1.mpr
    (by decide)

/-- Counterexample to C2 as stated: a trailing-wildcard query
(`like 'a%'`) has no leading-wildcard LIKE literal and indeed gets no
issue, yet the 10-point deduction applies (score 75 instead of the 85 the
same query gets with `=` in place of `like`). -/
theorem like_wildcard_rule_cex :
    likeWildcardIssue ∉
      analyze_sql_issues "select name from t where name like \x27a%\x27" ∧
    (substrS "like" (toLowerS "select name from t where name like \x27a%\x27")
      && substrS "%" "select name from t where name like \x27a%\x27") = true ∧
    calculate_performance_score "select name from t where name like \x27a%\x27"
      (analyze_sql_issues "select name from t where name like \x27a%\x27") true = 75 ∧
    calculate_performance_score "select name from t where name = \x27a\x27"
      (analyze_sql_issues "select name from t where name = \x27a\x27") true = 85 := by
  decide

/-- C5 (corrected): the scenario query yields exactly the wildcard, no-limit
and `company_id`-indexing issues; the score is 65 (rated Fair) when the
matched context is validated, and 60 (still Fair) when it is not. -/
theorem scenario_select_star_orders_amended :
    analyze_sql_issues "SELECT * FROM orders WHERE company_id = 1" =
      [wildcardIssue, noLimitIssue, whereFieldIssue "company_id"] ∧
    calculate_performance_score "SELECT * FROM orders WHERE company_id = 1"
      (analyze_sql_issues "SELECT * FROM orders WHERE company_id = 1") true = 65 ∧
    get_performance_rating
      (calculate_performance_score "SELECT * FROM orders WHERE company_id = 1"
        (analyze_sql_issues "SELECT * FROM orders WHERE company_id = 1") true)
      = "🟠 Fair" ∧
    calculate_performance_score "SELECT * FROM orders WHERE company_id = 1"
      (analyze_sql_issues "SELECT * FROM orders WHERE company_id = 1") false = 60 ∧
    get_performance_rating
      (calculate_performance_score "SELECT * FROM orders WHERE company_id = 1"
        (analyze_sql_issues "SELECT * FROM orders WHERE company_id = 1") false)
      = "🟠 Fair" := by
  decide

/-- Counterexample to C5 as stated: in the run of the pipeline where the
matched context is not validated, the score of the scenario query is 60,
not 65. -/
theorem scenario_select_star_orders_cex :
    calculate_performance_score "SELECT * FROM orders WHERE company_id = 1"
      (analyze_sql_issues "SELECT * FROM orders WHERE company_id = 1") false = 60 ∧
    (60 : Int) ≠ 65 := by
  decide

/-! ### Context-validator window properties -/

theorem check_some (lines : List String) (n : Nat) :
    check_input_validation (some lines) n =
      ((List.range' (n - 20) (min lines.length (n + 20) - (n - 20))).any
          (fun i => line_validated (lines.getD i "")),
       (List.range' (n - 20) (min lines.length (n + 20) - (n - 20))).flatMap
          (fun i => line_validation_entries i (lines.getD i "")),
       (List.range' (n - 20) (min lines.length (n + 20) - (n - 20))).flatMap
          (fun i => line_security_entries i (lines.getD i ""))) := rfl

theorem any_congr_mem {α : Type} {l : List α} {f g : α → Bool}
    (h : ∀ a ∈ l, f a = g a) : l.any f = l.any g := by
  induction l with
  | nil => rfl
  | cons a t ih =>
    simp only [List.any_cons, h a (by simp),
      ih fun b hb => h b (by simp [hb])]

theorem flatMap_congr_mem {α β : Type} {l : List α} {f g : α → List β}
    (h : ∀ a ∈ l, f a = g a) : l.flatMap f = l.flatMap g := by
  induction l with
  | nil => rfl
  | cons a t ih =>
    simp only [List.flatMap_cons, h a (by simp),
      ih fun b hb => h b (by simp [hb])]

/-- C3 (amended): the returned `validated` flag is true exactly when some
line of the inspected window matches one of the *validation* patterns; a
validation-pattern match on a window line appends its "Line N: ..." entry
to `validationMethods`; and a match of one of the escaping/security
patterns appends a "Line N: Security - ..." entry to `validationMethods`
without setting the flag. -/
theorem validator_patterns_amended :
    ∀ (lines : List String) (n : Nat),
      ((check_input_validation (some lines) n).1 = true ↔
        ∃ i, n - 20 ≤ i ∧ i < min lines.length (n + 20) ∧
          ∃ p, p ∈ validation_patterns ∧
            substrS p (procLine (lines.getD i "")) = true) ∧
      (∀ i, n - 20 ≤ i → i < min lines.length (n + 20) →
        ∀ p, p ∈ validation_patterns →
          substrS p (procLine (lines.getD i "")) = true →
          vmEntry i (lines.getD i "") ∈ (check_input_validation (some lines) n).2.1) ∧
      (∀ i, n - 20 ≤ i → i < min lines.length (n + 20) →
        ∀ p, p ∈ security_patterns →
          substrS p (procLine (lines.getD i "")) = true →
          secEntry i (lines.getD i "") ∈ (check_input_validation (some lines) n).2.1) := by
  intro lines n
  rw [check_some]
  refine ⟨?_, ?_, ?_⟩
  · rw [List.any_eq_true]
    constructor
    · rintro ⟨i, hmem, hv⟩
      rw [mem_range1] at hmem
      rw [line_validated, List.any_eq_true] at hv
      obtain ⟨p, hp, hps⟩ := hv
      exact ⟨i, hmem.1, by omega, p, hp, hps⟩
    · rintro ⟨i, h1, h2, p, hp, hps⟩
      refine ⟨i, mem_range1.mpr ⟨h1, by omega⟩, ?_⟩
      rw [line_validated, List.any_eq_true]
      exact ⟨p, hp, hps⟩
  · intro i h1 h2 p hp hps
    rw [List.mem_flatMap]
    refine ⟨i, mem_range1.mpr ⟨h1, by omega⟩, ?_⟩
    rw [line_validation_entries]
    refine List.mem_append.mpr (Or.inl ?_)
    exact List.mem_map.mpr ⟨p, List.mem_filter.mpr ⟨hp, hps⟩, rfl⟩
  · intro i h1 h2 p hp hps
    rw [List.mem_flatMap]
    refine ⟨i, mem_range1.mpr ⟨h1, by omega⟩, ?_⟩
    rw [line_validation_entries]
    refine List.mem_append.mpr (Or.inr ?_)
    exact List.mem_map.mpr ⟨p, List.mem_filter.mpr ⟨hp, hps⟩, rfl⟩

/-- Witness for C3's amended description: a validation call inside the
window sets the flag and its "Line N: ..." entry is appended to
`validationMethods`. -/
theorem validator_patterns_amended_w :
    (check_input_validation (some ["validate(x)"]) 1).1 = true ∧
    vmEntry 0 "validate(x)" ∈ (check_input_validation (some ["validate(x)"]) 1).2.1 :=
  ⟨(validator_patterns_amended ["validate(x)"] 1).1.mpr
    ⟨0, by decide, by decide, "validate(", by decide, by decide⟩,
   (validator_patterns_amended ["validate(x)"] 1).2.1 0 (by decide) (by decide)
    "validate(" (by decide) (by decide)⟩

/-- Counterexample to C3 as stated: a line matching only the escaping
pattern `htmlspecialchars` leaves `validated = false`, although it appends
its (security-prefixed) entry to `validationMethods`. -/
theorem validator_patterns_cex :
    check_input_validation (some ["htmlspecialchars($x);"]) 1 =
      (false, ["Line 1: Security - htmlspecialchars($x);"], []) := by
  decide

/-- C4 (amended): the inspected window consists of the 0-based indices in
`[max 0 (n-20), min len (n+20))`, i.e. 19 lines before the matched 1-based
line `n` through 20 lines after it; nothing outside that window influences
any of the three results. -/
theorem validator_window_amended :
    ∀ (l1 l2 : List String) (n : Nat),
      l1.length = l2.length →
      (∀ i, n - 20 ≤ i → i < min l1.length (n + 20) → l1.getD i "" = l2.getD i "") →
      check_input_validation (some l1) n = check_input_validation (some l2) n := by
  intro l1 l2 n hlen hag
  rw [check_some, check_some, hlen]
  have key : ∀ i ∈ List.range' (n - 20) (min l2.length (n + 20) - (n - 20)),
      l1.getD i "" = l2.getD i "" := by
    intro i hi
    rw [mem_range1] at hi
    refine hag i hi.1 ?_
    rw [hlen]
    omega
  rw [any_congr_mem fun i hi => congrArg line_validated (key i hi),
    flatMap_congr_mem fun i hi => congrArg (line_validation_entries i) (key i hi),
    flatMap_congr_mem fun i hi => congrArg (line_security_entries i) (key i hi)]

/-- Witness for C4: two files that differ only outside the window give
identical validator results. -/
theorem validator_window_amended_w :
    check_input_validation (some ["validate(", "x"]) 22 =
      check_input_validation (some ["validate(", "y"]) 22 :=
  validator_window_amended ["validate(", "x"] ["validate(", "y"] 22 rfl
    (by
      intro i h1 h2
      have h3 : i < 2 := Nat.lt_of_lt_of_le h2 (Nat.min_le_left _ _)
      exact absurd h3 (by omega))

/-- Modelled from the spec: the Context Validator window as the spec
describes it — a *symmetric* window of 20 lines before and 20 lines after
the matched 1-based line (0-based indices `[n-1-20, n-1+20]`, clamped). -/
def check_input_validation_symmetric (file : Option (List String)) (line_number : Nat) :
    Bool × List String × List String :=
  match file with
  | none => (false, [], [])
  | some lines =>
    let s := line_number - 21
    let e := min lines.length (line_number + 20)
    let idxs := List.range' s (e - s)
    ((idxs.any fun i => line_validated (lines.getD i "")),
     idxs.flatMap fun i => line_validation_entries i (lines.getD i ""),
     idxs.flatMap fun i => line_security_entries i (lines.getD i ""))

/-- Counterexample to C4 as stated: with the matched line 21 of a 21-line
file, the line exactly 20 lines before it (line 1, holding a validation
call) is *not* inspected by the code, though the spec's symmetric window
contains it. -/
theorem validator_window_cex :
    (check_input_validation (some ("validate(" :: List.replicate 20 "")) 21).1 = false ∧
    (check_input_validation_symmetric (some ("validate(" :: List.replicate 20 "")) 21).1 = true := by
  decide
